import Mathlib

/-!
Verification development for the Alforsa site generator and publisher.

The repository has two Python scripts:
* `alforsa_full_publish.py` — builds a bilingual static site (HTML pages, a
  sitemap, robots, JSON-LD, verification stub, CNAME), zips the output tree,
  and pushes it to a GitHub repository through a temporary credentialed
  remote, finally enabling GitHub Pages through the REST API.
* `scripts/generate_sitemap.py` — a standalone sitemap generator over a
  hand-maintained URL list with alternate-language links.

Below, the pure string-building parts are embedded directly as Lean
functions; the stateful git/network parts are embedded as functions from an
explicit environment (oracle of external outcomes) to a result and a trace.
-/

/-! ## Python string primitives used by the scripts -/

/-- Python `str.strip()` whitespace set: space, tab, newline, CR, VT, FF. -/
def pyWhitespace (c : Char) : Bool :=
  c == ' ' || c == '\t' || c == '\n' || c == '\r' || c == '\x0b' || c == '\x0c'

/-- Python `s.strip()` with the default whitespace set. -/
def pyStrip (s : String) : String :=
  ⟨((s.data.dropWhile pyWhitespace).reverse.dropWhile pyWhitespace).reverse⟩

/-- Python `s.rstrip(c)` for a single strip character. -/
def pyRstrip (c : Char) (s : String) : String :=
  ⟨((s.data.reverse).dropWhile (· == c)).reverse⟩

/-- Python `s.lstrip(c)` for a single strip character. -/
def pyLstrip (c : Char) (s : String) : String :=
  ⟨s.data.dropWhile (· == c)⟩

/-- Fuel-driven engine for Python's `str.replace`: scans left to right,
replacing non-overlapping occurrences of `pat` and skipping past each
replaced region.  The fuel starts at the length of the string, which is an
upper bound on the number of scanning steps because each step consumes at
least one character of the subject. -/
def pyReplaceFuel (pat rep : List Char) : Nat → List Char → List Char
  | _, [] => []
  | 0, s => s
  | n + 1, c :: cs =>
    if pat ≠ [] ∧ pat.isPrefixOf (c :: cs) then
      rep ++ pyReplaceFuel pat rep n (List.drop pat.length (c :: cs))
    else
      c :: pyReplaceFuel pat rep n cs

/-- Python `s.replace(pat, rep)` (all non-overlapping occurrences, left to
right), for a non-empty pattern. -/
def pyReplace (pat rep s : String) : String :=
  ⟨pyReplaceFuel pat.data rep.data s.data.length s.data⟩

/-- Python `s.startswith(p)`. -/
def pyStartswith (p s : String) : Bool :=
  p.data.isPrefixOf s.data

/-- Does `pat` occur as a contiguous subsequence of `s`? (Python `pat in s`.) -/
def containsSeq (pat : List Char) : List Char → Bool
  | [] => pat.isEmpty
  | c :: cs => pat.isPrefixOf (c :: cs) || containsSeq pat cs

/-! ## Data model: `BUSINESS` and `PAGES` constants of `alforsa_full_publish.py` -/

structure Business where
  name_en : String
  name_ar : String
  phone : String
  main_url : String
  description_en : String
  description_ar : String
  streetAddress : String
  currency : String

def BUSINESS : Business :=
  { name_en := "Alforsa Ice Cream Machines"
    name_ar := "الفرصة لمكائن الآيس كريم"
    phone := "+966509995448"
    main_url := "https://alforsa.sa/"
    description_en := "Supplier of soft serve ice cream machines, slush machines, spare parts and maintenance in Saudi Arabia and worldwide."
    description_ar := "مورد ماكينات الآيس كريم السوفتر، ماكينات سلاش، قطع غيار وصيانة في السعودية وحول العالم."
    streetAddress := "Riyadh, Saudi Arabia"
    currency := "SAR" }

structure Page where
  slug : String
  title_en : String
  title_ar : String
deriving DecidableEq

def PAGES : List Page :=
  [ { slug := "soft-serve-ice-cream-machine", title_en := "Soft Serve Ice Cream Machine", title_ar := "ماكينة آيس كريم سوفت سيرف" }
  , { slug := "alforsa-ice-cream-machine", title_en := "Alforsa Ice Cream Machine", title_ar := "ماكينة آيس كريم الفرصة" }
  , { slug := "slush-machine", title_en := "Slush Machine", title_ar := "ماكينة سلاش" }
  , { slug := "3-burner-slush-machine", title_en := "3 Burner Slush Machine", title_ar := "ماكينة سلاش بثلاث شعلات" }
  , { slug := "spare-parts", title_en := "Spare Parts", title_ar := "قطع غيار" }
  , { slug := "maintenance", title_en := "Maintenance & Service", title_ar := "الصيانة والخدمة" } ]

/-- `BUSINESS['main_url'].rstrip("/")`, the base URL used throughout the builder. -/
def base : String := pyRstrip '/' BUSINESS.main_url

/-! ## `make_html_page` -/

/-- The `hreflang_tags` accumulation loop of `make_html_page`. -/
def hreflangTags (links : List (String × String)) : String :=
  links.foldl
    (fun acc hl =>
      acc ++ ("<link rel=\"alternate\" href=\"" ++ hl.1 ++ "\" hreflang=\"" ++ hl.2 ++ "\">\n    "))
    ""

/-- `make_html_page(title, description, canonical, body_html, lang, hreflang_links)`
from `alforsa_full_publish.py`.  The current UTC year (used in the footer
copyright line) is passed explicitly as `year`. -/
def make_html_page (title description canonical body_html lang : String)
    (hreflang_links : List (String × String)) (year : Nat) : String :=
  "<!doctype html>\n<html lang=\"" ++ lang ++ "\">\n<head>\n  <meta charset=\"utf-8\">\n  <meta name=\"viewport\" content=\"width=device-width,initial-scale=1\">\n  <title>" ++
  title ++ "</title>\n  <meta name=\"description\" content=\"" ++
  description ++ "\">\n  <meta name=\"keywords\" content=\"Alforsa, الفرصة, ice cream machine, soft serve, slush, slush machine, spare parts, maintenance, 3 burner slush\">\n  " ++
  "<link rel=\"canonical\" href=\"" ++ canonical ++ "\">" ++ "\n  " ++
  hreflangTags hreflang_links ++ "<meta property=\"og:site_name\" content=\"" ++
  BUSINESS.name_en ++ "\">\n  <meta property=\"og:title\" content=\"" ++
  title ++ "\">\n  <meta property=\"og:description\" content=\"" ++
  description ++ "\">\n  <meta property=\"og:url\" content=\"" ++
  canonical ++ "\">\n  <meta name=\"twitter:card\" content=\"summary_large_image\">\n  <style>body\x7bfont-family:Arial,Helvetica,sans-serif;max-width:960px;margin:20px auto;padding:0 16px;line-height:1.5\x7d header h1\x7bfont-size:1.6rem\x7d footer\x7bmargin-top:40px;color:#444\x7d</style>\n</head>\n<body>\n<header>\n  <h1>" ++
  BUSINESS.name_en ++ " — " ++ BUSINESS.name_ar ++ "</h1>\n  <p>" ++
  BUSINESS.description_en ++ "</p>\n  <p><strong>Phone:</strong> <a href=\"tel:" ++
  BUSINESS.phone ++ "\">" ++ BUSINESS.phone ++ "</a> | <strong>Website:</strong> <a href=\"" ++
  BUSINESS.main_url ++ "\">" ++ BUSINESS.main_url ++ "</a></p>\n  <hr>\n</header>\n<main>\n" ++
  body_html ++ "\n</main>\n<footer>\n  <p>" ++
  BUSINESS.name_en ++ " — " ++ BUSINESS.name_ar ++ "</p>\n  <p>Address: " ++
  BUSINESS.streetAddress ++ "</p>\n  <p>Phone: <a href=\"tel:" ++
  BUSINESS.phone ++ "\">" ++ BUSINESS.phone ++ "</a> | Website: <a href=\"" ++
  BUSINESS.main_url ++ "\">" ++ BUSINESS.main_url ++ "</a></p>\n  <small>© " ++
  toString year ++ " " ++ BUSINESS.name_en ++ "</small>\n</footer>\n</body>\n</html>\n"

example : pyStrip "  ab c \n" = "ab c" := by decide
example : pyRstrip '/' "https://alforsa.sa/" = "https://alforsa.sa" := by decide
example : pyReplace "/ar/" "/en/" "/ar/product-mini.html" = "/en/product-mini.html" := by decide
example : base = "https://alforsa.sa" := by decide

/-! ## `build_site_and_assets`: the generated documents

Each definition below transliterates one f-string / write of
`build_site_and_assets`.  The current UTC date (ISO, date only) and year are
passed explicitly as `today` / `year`. -/

/-- `en_canon`: canonical URL of the English page for `p`. -/
def enCanon (p : Page) : String :=
  base ++ "/en/" ++ p.slug ++ ".html"

/-- `ar_canon`: canonical URL of the Arabic page for `p`. -/
def arCanon (p : Page) : String :=
  base ++ "/ar/" ++ p.slug ++ ".html"

/-- `en_body` for a page. -/
def enBody (p : Page) : String :=
  "<h2>" ++ p.title_en ++ "</h2>\n<p>" ++ p.title_en ++ " — " ++ BUSINESS.description_en ++
  "</p>\n<ul><li>High performance machines</li><li>Genuine spare parts</li><li>Maintenance & service</li></ul>"

/-- `ar_body` for a page. -/
def arBody (p : Page) : String :=
  "<h2>" ++ p.title_ar ++ "</h2>\n<p>" ++ p.title_ar ++ " — " ++ BUSINESS.description_ar ++
  "</p>\n<ul><li>أداء عالي</li><li>قطع غيار أصلية</li><li>خدمات وصيانة</li></ul>"

/-- `en_html` for a page (note: `en_body` is passed both as the description
and as the body, as in the source). -/
def enPageHtml (p : Page) (year : Nat) : String :=
  make_html_page (p.title_en ++ " — " ++ BUSINESS.name_en) (enBody p) (enCanon p)
    (enBody p) "en" [] year

/-- `ar_html` for a page. -/
def arPageHtml (p : Page) (year : Nat) : String :=
  make_html_page (p.title_ar ++ " — " ++ BUSINESS.name_en) (arBody p) (arCanon p)
    (arBody p) "ar" [] year

/-- `en_home_body`: header, one list item per page, contact footer. -/
def en_home_body : String :=
  "<h2>Products & Services</h2><ul>" ++
  String.join (PAGES.map fun p =>
    "<li><a href=\"/en/" ++ p.slug ++ ".html\">" ++ p.title_en ++ " — " ++ p.title_ar ++ "</a></li>\n") ++
  "</ul>\n<p>Contact us: <a href=\x27tel:" ++ BUSINESS.phone ++ "\x27>" ++ BUSINESS.phone ++ "</a></p>"

/-- `ar_home_body`. -/
def ar_home_body : String :=
  "<h2>المنتجات والخدمات</h2><ul>" ++
  String.join (PAGES.map fun p =>
    "<li><a href=\"/ar/" ++ p.slug ++ ".html\">" ++ p.title_ar ++ " — " ++ p.title_en ++ "</a></li>\n") ++
  "</ul>\n<p>اتصل بنا: <a href=\x27tel:" ++ BUSINESS.phone ++ "\x27>" ++ BUSINESS.phone ++ "</a></p>"

/-- `en/index.html` content. -/
def enIndexHtml (year : Nat) : String :=
  make_html_page (BUSINESS.name_en ++ " — Home") BUSINESS.description_en
    (base ++ "/en/index.html") en_home_body "en" [] year

/-- `ar/index.html` content. -/
def arIndexHtml (year : Nat) : String :=
  make_html_page (BUSINESS.name_ar ++ " — الصفحة الرئيسية") BUSINESS.description_ar
    (base ++ "/ar/index.html") ar_home_body "ar" [] year

/-- `root_body`, the root landing page body (triple-quoted f-string,
leading and trailing newlines included). -/
def root_body : String :=
  "\n<h2>Welcome / مرحباً</h2>\n<p><a href=\"/en/index.html\">English site — English</a></p>\n<p><a href=\"/ar/index.html\">الموقع باللغة العربية — Arabic</a></p>\n<p>Or visit the official site: <a href=\"" ++
  BUSINESS.main_url ++ "\">" ++ BUSINESS.main_url ++ "</a></p>\n"

/-- Root `index.html` content (canonical is the raw `main_url`, and hreflang
links point at both home pages). -/
def rootIndexHtml (year : Nat) : String :=
  make_html_page (BUSINESS.name_en ++ " — Landing") BUSINESS.description_en
    BUSINESS.main_url root_body "en"
    [(base ++ "/en/index.html", "en"), (base ++ "/ar/index.html", "ar")] year

/-- The `urls` list of the builder's sitemap: root index, the two home
pages, then the en and ar page for every entry, in `pages` order. -/
def sitemapUrls (pages : List Page) : List String :=
  [base ++ "/index.html", base ++ "/en/index.html", base ++ "/ar/index.html"] ++
  pages.flatMap (fun p =>
    [base ++ "/en/" ++ p.slug ++ ".html", base ++ "/ar/" ++ p.slug ++ ".html"])

/-- The lines of `sitemap.xml` as accumulated by the builder, before the
final `"\n".join`. -/
def sitemapLines (pages : List Page) (today : String) : List String :=
  ["<?xml version=\"1.0\" encoding=\"UTF-8\"?>",
   "<urlset xmlns=\"http://www.sitemaps.org/schemas/sitemap/0.9\">"] ++
  (sitemapUrls pages).flatMap (fun u =>
    ["  <url>",
     "    <loc>" ++ u ++ "</loc>",
     "    <lastmod>" ++ today ++ "</lastmod>",
     "  </url>"]) ++
  ["</urlset>"]

/-- `sitemap.xml` content. -/
def sitemapXml (pages : List Page) (today : String) : String :=
  String.intercalate "\n" (sitemapLines pages today)

/-- `robots.txt` content. -/
def robots_txt : String :=
  "User-agent: *\nAllow: /\nSitemap: " ++ base ++ "/sitemap.xml\n"

/-- `schema_localbusiness.json` content: the result of
`json.dumps(ld, ensure_ascii=False, indent=2)` on the fixed `ld` dict
(Python preserves insertion order). -/
def schemaJson : String :=
  "\x7b\n  \"@context\": \"https://schema.org\",\n  \"@type\": \"LocalBusiness\",\n  \"name\": \"" ++
  BUSINESS.name_en ++ "\",\n  \"alternateName\": \"" ++
  BUSINESS.name_ar ++ "\",\n  \"url\": \"" ++
  BUSINESS.main_url ++ "\",\n  \"telephone\": \"" ++
  BUSINESS.phone ++ "\",\n  \"address\": \x7b\n    \"@type\": \"PostalAddress\",\n    \"streetAddress\": \"" ++
  BUSINESS.streetAddress ++ "\",\n    \"addressCountry\": \"SA\"\n  \x7d\n\x7d"

/-- `google-site-verification-alforsa.html` content. -/
def verification_content : String :=
  "<html><head><meta name=\x27google-site-verification\x27 content=\x27replace_with_token\x27></head><body>Google site verification file for Alforsa</body></html>"

/-- `CNAME` content. -/
def cnameContent : String := "alforsa.sa\n"

/-! ## Output tree, `os.walk` and the zip step -/

/-! A filesystem tree: files with byte contents and nested directories
(`FsList` is the list of entries of one directory). -/
mutual
inductive FsEntry where
  | file (nm content : String)
  | dir (nm : String) (entries : FsList)
inductive FsList where
  | nil
  | cons (e : FsEntry) (es : FsList)
end

/-- Build an `FsList` from an ordinary list of entries. -/
def FsList.ofList : List FsEntry → FsList
  | [] => .nil
  | e :: es => .cons e (FsList.ofList es)

/-! `os.walk` restricted to what the zip loop uses: every file reachable
under the given path prefix, as `(full path, content)`, the files of a
directory listed before its subdirectories' files. -/
mutual
def walkEntry (pre : String) : FsEntry → List (String × String)
  | .file nm c => [(pre ++ "/" ++ nm, c)]
  | .dir nm ds => walkList (pre ++ "/" ++ nm) ds
def walkList (pre : String) : FsList → List (String × String)
  | .nil => []
  | .cons e es => walkEntry pre e ++ walkList pre es
end

/-! The same files with paths relative to the tree root (no root prefix). -/
mutual
def relEntry : FsEntry → List (String × String)
  | .file nm c => [(nm, c)]
  | .dir nm ds => (relList ds).map (fun pc => (nm ++ "/" ++ pc.1, pc.2))
def relList : FsList → List (String × String)
  | .nil => []
  | .cons e es => relEntry e ++ relList es
end

/-- `os.path.relpath(fp, root)` for a path `fp` lying strictly below
`root`: drop the root and the following separator. -/
def pyRelpath (fp root : String) : String :=
  ⟨fp.data.drop (root.data.length + 1)⟩

/-- The zip loop of `build_site_and_assets`: walk the output root and store
each file under `os.path.relpath(fp, OUTPUT_DIR)`. -/
def zipEntries (root : String) (es : FsList) : List (String × String) :=
  (walkList root es).map (fun pc => (pyRelpath pc.1 root, pc.2))

/-- The output directory `alforsa_site` as written by
`build_site_and_assets`: root-level files, then the `en` and `ar`
subdirectories (per-page documents in `PAGES` order, then the home page). -/
def siteTree (today : String) (year : Nat) : FsList :=
  FsList.ofList
  [ .file "index.html" (rootIndexHtml year)
  , .file "sitemap.xml" (sitemapXml PAGES today)
  , .file "robots.txt" robots_txt
  , .file "schema_localbusiness.json" schemaJson
  , .file "google-site-verification-alforsa.html" verification_content
  , .file "CNAME" cnameContent
  , .dir "en" (FsList.ofList
      (PAGES.map (fun p => .file (p.slug ++ ".html") (enPageHtml p year)) ++
       [.file "index.html" (enIndexHtml year)]))
  , .dir "ar" (FsList.ofList
      (PAGES.map (fun p => .file (p.slug ++ ".html") (arPageHtml p year)) ++
       [.file "index.html" (arIndexHtml year)])) ]

/-- The generated site as a set of `(path relative to the output root,
content)` pairs — the builder's output contract. -/
def buildOutputs (today : String) (year : Nat) : List (String × String) :=
  relList (siteTree today year)

example : (buildOutputs "2025-01-01" 2025).length = 20 := by rfl
example : ((buildOutputs "2025-01-01" 2025).map Prod.fst) =
    ["index.html", "sitemap.xml", "robots.txt", "schema_localbusiness.json",
     "google-site-verification-alforsa.html", "CNAME",
     "en/soft-serve-ice-cream-machine.html", "en/alforsa-ice-cream-machine.html",
     "en/slush-machine.html", "en/3-burner-slush-machine.html", "en/spare-parts.html",
     "en/maintenance.html", "en/index.html",
     "ar/soft-serve-ice-cream-machine.html", "ar/alforsa-ice-cream-machine.html",
     "ar/slush-machine.html", "ar/3-burner-slush-machine.html", "ar/spare-parts.html",
     "ar/maintenance.html", "ar/index.html"] := by rfl

/-! ## `push_site_to_github`: the temporary-remote push dance

State: the repository's list of configured remotes, as `(name, url)` pairs.
External outcomes that the script reacts to (git init failing, `create_remote`
raising `GitCommandError`, the two pushes succeeding or failing) are supplied
as a `PushEnv` oracle; everything else is the script's own control flow.
`delete_remote` is modelled by git's behaviour: it removes the named remote
when present and raises (an exception the script swallows) when absent. -/

/-- Oracle of external outcomes for one `push_site_to_github` invocation. -/
structure PushEnv where
  /-- remotes configured in the repository when the function starts -/
  initRemotes : List (String × String)
  /-- `Repo.init` raises -/
  initFails : Bool
  /-- `repo.create_remote("temp-origin", …)` raises `GitCommandError` -/
  createFails : Bool
  /-- the push to branch `master` would succeed (given the remote exists) -/
  pushMasterOk : Bool
  /-- the fallback push to branch `main` would succeed -/
  pushMainOk : Bool

/-- How one invocation of `push_site_to_github` terminates. -/
inductive PushOutcome where
  /-- `Repo.init` failed: error printed, early normal return -/
  | gitInitError
  /-- a push succeeded on the given branch; normal return -/
  | pushed (branch : String)
  /-- both pushes failed: diagnostic printed, early normal return -/
  | bothPushesFailed
  /-- `repo.remotes[0]` raised an uncaught `IndexError` -/
  | uncaughtIndexError
deriving DecidableEq

/-- The token-bearing URL of the temporary remote
(`remote_url_with_token`); `REPO_NAME = "alforsa"`. -/
def remote_url_with_token (username token : String) : String :=
  "https://" ++ username ++ ":" ++ token ++ "@github.com/" ++ username ++ "/alforsa.git"

/-- Is a remote of the given name configured? -/
def hasRemote (rs : List (String × String)) (nm : String) : Bool :=
  rs.any (fun r => r.1 == nm)

/-- `repo.delete_remote(nm)`'s effect on the remote list (when `nm` is
absent the call raises instead; callers below model the surrounding
`try/except`). -/
def removeRemote (rs : List (String × String)) (nm : String) : List (String × String) :=
  rs.filter (fun r => r.1 != nm)

/-- The push/fallback/cleanup tail of `push_site_to_github`, entered with
remote list `rs`.  Mirrors: try push `master:master`; on any exception try
push `main:main`; on a second exception print diagnostics, delete the
temporary remote (exception swallowed) and return; on success delete the
temporary remote (exception swallowed) and return.  A push attempt succeeds
only if the remote `temp-origin` exists (otherwise `repo.remotes["temp-origin"]`
raises, caught by the same `except`) and the oracle lets this branch's push
succeed.  Returns the outcome, the final remote list, and the list of
branches for which a push attempt was entered. -/
def pushAndCleanup (env : PushEnv) (rs : List (String × String)) :
    PushOutcome × List (String × String) × List String :=
  if hasRemote rs "temp-origin" && env.pushMasterOk then
    (.pushed "master", removeRemote rs "temp-origin", ["master"])
  else if hasRemote rs "temp-origin" && env.pushMainOk then
    (.pushed "main", removeRemote rs "temp-origin", ["master", "main"])
  else
    (.bothPushesFailed, removeRemote rs "temp-origin", ["master", "main"])

/-- `push_site_to_github(username, token)`.

Control flow from the source: init the repo (on failure print and return);
add/commit (failures only warn — no effect on remotes); if a remote named
`temp-origin` exists, delete it; `create_remote("temp-origin", url)`; if that
raises `GitCommandError`, fall back to `repo.remotes.temporigin` when a
remote is exposed under the attribute name `temporigin` (note: no hyphen),
else `repo.remotes[0]`, which raises an uncaught `IndexError` when the
repository has no remotes; then push with fallback and cleanup. -/
def push_site_to_github (env : PushEnv) (username token : String) :
    PushOutcome × List (String × String) × List String :=
  if env.initFails then (.gitInitError, env.initRemotes, [])
  else
    let rs1 := if hasRemote env.initRemotes "temp-origin" then
                 removeRemote env.initRemotes "temp-origin"
               else env.initRemotes
    if env.createFails then
      if hasRemote rs1 "temporigin" then pushAndCleanup env rs1
      else if rs1.length > 0 then pushAndCleanup env rs1
      else (.uncaughtIndexError, rs1, [])
    else
      pushAndCleanup env (rs1 ++ [("temp-origin", remote_url_with_token username token)])

/-! ## `enable_github_pages_api` and `main` -/

/-- The JSON body of the Pages-configuration request:
`{"source": {"branch": …, "path": …}}`. -/
structure PagesPayload where
  sourceBranch : String
  sourcePath : String
deriving DecidableEq

/-- The payload constant of `enable_github_pages_api`: always
`{"source": {"branch": "master", "path": "/"}}`. -/
def enablePagesPayload : PagesPayload :=
  { sourceBranch := "master", sourcePath := "/" }

/-- Externally visible network operations of one run of `main`. -/
inductive NetCall where
  /-- `POST https://api.github.com/user/repos` creating `repoName` -/
  | createRepo (user repoName : String)
  /-- a `git push` attempt over the network against the given branch -/
  | gitPush (branch : String)
  /-- `POST …/repos/{user}/{repo}/pages` with the given payload -/
  | enablePages (user repoName : String) (payload : PagesPayload)
deriving DecidableEq

/-- Result of one run of `main` (after the local build). -/
structure MainResult where
  /-- network calls issued, in order -/
  calls : List NetCall
  /-- the run printed the local build path (`OUTPUT_DIR.resolve()`) -/
  printedLocalBuildPath : Bool
  /-- the publish phase was skipped because of missing credentials -/
  publishSkipped : Bool
  /-- the run terminated with an unhandled exception -/
  raised : Bool
deriving DecidableEq

/-- `main()` from `build_site_and_assets` onwards: build locally, prompt for
username and token (modelled as the raw input strings), strip them, and
either exit after the local build (printing the local path) or run the
publish phase: create repo, push (with its per-attempt network pushes),
enable Pages, print next steps and the local path. -/
def mainRun (usernameRaw tokenRaw : String) (env : PushEnv) : MainResult :=
  let username := pyStrip usernameRaw
  let token := pyStrip tokenRaw
  if username == "" || token == "" then
    { calls := [], printedLocalBuildPath := true, publishSkipped := true, raised := false }
  else
    let pushRes := push_site_to_github env username token
    if pushRes.1 == .uncaughtIndexError then
      { calls := [.createRepo username "alforsa"] ++ pushRes.2.2.map .gitPush
        printedLocalBuildPath := false, publishSkipped := false, raised := true }
    else
      { calls := [.createRepo username "alforsa"] ++ pushRes.2.2.map .gitPush ++
          [.enablePages username "alforsa" enablePagesPayload]
        printedLocalBuildPath := true, publishSkipped := false, raised := false }

/-! ## `scripts/generate_sitemap.py` -/

/-- The hand-maintained `urls` list of the Sitemap Utility. -/
def utilUrls : List String :=
  ["/", "/en/", "/ar/", "/en/product-mini.html", "/ar/product-mini.html"]

/-- The `en` alternate computed for `path`:
`path if path.startswith("/en/") else ("/en/" + path.lstrip("/")) if path == "/" else path.replace("/ar/", "/en/")`. -/
def altEn (path : String) : String :=
  if pyStartswith "/en/" path then path
  else if path == "/" then "/en/" ++ pyLstrip '/' path
  else pyReplace "/ar/" "/en/" path

/-- The `ar` alternate computed for `path`. -/
def altAr (path : String) : String :=
  if pyStartswith "/ar/" path then path
  else if path == "/" then "/ar/" ++ pyLstrip '/' path
  else pyReplace "/en/" "/ar/" path

example : altEn "/" = "/en/" := by decide
example : altAr "/" = "/ar/" := by decide
example : altEn "/ar/product-mini.html" = "/en/product-mini.html" := by decide
example : altAr "/en/product-mini.html" = "/ar/product-mini.html" := by decide

/-! ## Helper lemmas -/

/-- After filtering out the remote named `nm`, no remote named `nm` remains. -/
theorem hasRemote_removeRemote (rs : List (String × String)) (nm : String) :
    hasRemote (removeRemote rs nm) nm = false := by
  simp only [hasRemote, removeRemote, List.any_eq_false]
  intro r hr
  have h := (List.mem_filter.mp hr).2
  simp only [bne_iff_ne, ne_eq] at h
  simpa using h

/-- The remote just appended at the end of the list is present. -/
theorem hasRemote_append_single (rs : List (String × String)) (nm url : String) :
    hasRemote (rs ++ [(nm, url)]) nm = true := by
  simp [hasRemote, List.any_append]

/-! ## C7: alternate-language links of the Sitemap Utility -/

/-- C7: for every path in the Sitemap Utility's URL list, the
alternate-language links are computed by substring substitution between
`/en/` and `/ar/` prefixes; the one entry that is not language-prefixed
(the root `/`) is treated as the `en` variant by default and its `ar`
variant is synthesized by prefixing `/ar/`; the root maps to the
alternates `/en/` and `/ar/`. -/
theorem C7_alternate_language_links :
    utilUrls = ["/", "/en/", "/ar/", "/en/product-mini.html", "/ar/product-mini.html"]
    ∧ (altEn "/" = "/en/" ++ pyLstrip '/' "/" ∧ altAr "/" = "/ar/" ++ pyLstrip '/' "/"
       ∧ altEn "/" = "/en/" ∧ altAr "/" = "/ar/")
    ∧ (altEn "/en/" = "/en/" ∧ altAr "/en/" = pyReplace "/en/" "/ar/" "/en/"
       ∧ altAr "/en/" = "/ar/")
    ∧ (altEn "/ar/" = pyReplace "/ar/" "/en/" "/ar/" ∧ altEn "/ar/" = "/en/"
       ∧ altAr "/ar/" = "/ar/")
    ∧ (altEn "/en/product-mini.html" = "/en/product-mini.html"
       ∧ altAr "/en/product-mini.html" = pyReplace "/en/" "/ar/" "/en/product-mini.html"
       ∧ altAr "/en/product-mini.html" = "/ar/product-mini.html")
    ∧ (altEn "/ar/product-mini.html" = pyReplace "/ar/" "/en/" "/ar/product-mini.html"
       ∧ altEn "/ar/product-mini.html" = "/en/product-mini.html"
       ∧ altAr "/ar/product-mini.html" = "/ar/product-mini.html") := by
  refine ⟨rfl, ⟨?_, ?_, ?_, ?_⟩, ⟨?_, ?_, ?_⟩, ⟨?_, ?_, ?_⟩, ⟨?_, ?_, ?_⟩, ⟨?_, ?_, ?_⟩⟩ <;> decide

/-! ## C10: uncaught IndexError on remote-creation failure with no remotes -/

/-- C10: if `create_remote` raises `GitCommandError` while the repository
has no remotes at all (hence none exposed as `temporigin`), the fallback
`repo.remotes[0]` raises an uncaught `IndexError` and the function
terminates exceptionally instead of returning normally, whatever the push
oracle and credentials. -/
theorem C10_create_remote_fallback_index_error :
    ∀ (u t : String) (bm bn : Bool),
      push_site_to_github ⟨[], false, true, bm, bn⟩ u t
        = (.uncaughtIndexError, [], []) := by
  intro u t bm bn
  rfl

/-! ## C4: missing credentials skip the publish phase -/

/-- C4: if the stripped username or the stripped token is empty, the whole
Repo Publisher phase is skipped: no network call is made, the local build
path is still reported, and the process returns normally. -/
theorem C4_missing_credentials_skip_publish (uRaw tRaw : String) (env : PushEnv)
    (h : pyStrip uRaw = "" ∨ pyStrip tRaw = "") :
    mainRun uRaw tRaw env =
      { calls := [], printedLocalBuildPath := true, publishSkipped := true, raised := false } := by
  rcases h with h | h <;> simp [mainRun, h]

/-- Witness for C4 at a whitespace-only username. -/
theorem C4_missing_credentials_skip_publish_witness :
    mainRun "   " "sometoken" ⟨[], false, false, true, true⟩ =
      { calls := [], printedLocalBuildPath := true, publishSkipped := true, raised := false } :=
  C4_missing_credentials_skip_publish "   " "sometoken" ⟨[], false, false, true, true⟩
    (Or.inl (by decide))

/-! ## C1: the temporary credentialed remote never persists -/

/-- Every exit of the push/cleanup tail leaves no `temp-origin` remote. -/
theorem pushAndCleanup_no_temp_remote (env : PushEnv) (rs : List (String × String)) :
    hasRemote (pushAndCleanup env rs).2.1 "temp-origin" = false := by
  unfold pushAndCleanup
  split
  · exact hasRemote_removeRemote _ _
  · split
    · exact hasRemote_removeRemote _ _
    · exact hasRemote_removeRemote _ _

/-- C1: whenever the temporary remote `temp-origin` was actually created
(git init succeeded and `create_remote` did not raise), the function removes
it again on every exit path — successful push to `master`, successful
fallback push to `main`, or failure of both — so no remote of that name
(with the credential-bearing URL) remains in the final remote
configuration. -/
theorem C1_temp_remote_always_removed (env : PushEnv) (u t : String)
    (h1 : env.initFails = false) (h2 : env.createFails = false) :
    hasRemote (push_site_to_github env u t).2.1 "temp-origin" = false := by
  unfold push_site_to_github
  rw [h1, h2]
  simp only [Bool.false_eq_true, if_false]
  exact pushAndCleanup_no_temp_remote _ _

/-- Witness for C1: all-success environment; `temp-origin` is gone at the end. -/
theorem C1_temp_remote_always_removed_witness :
    hasRemote (push_site_to_github ⟨[("origin", "https://example.com/r.git")], false, false, true, true⟩
      "user" "tok").2.1 "temp-origin" = false :=
  C1_temp_remote_always_removed ⟨[("origin", "https://example.com/r.git")], false, false, true, true⟩
    "user" "tok" rfl rfl

/-! ## C5: push to master, single fallback to main, no further retry -/

/-- C5: once the push phase is reached with the temporary remote in place,
the push is attempted against `master` first; exactly when that attempt
fails, one retry is made against `main` (so the attempted-branch trace is
`["master"]` or `["master", "main"]`, never longer); and when both fail the
function returns normally with the failure outcome. -/
theorem C5_master_then_single_main_fallback (env : PushEnv) (u t : String)
    (h1 : env.initFails = false) (h2 : env.createFails = false) :
    ((push_site_to_github env u t).2.2 = ["master"] ∨
      (push_site_to_github env u t).2.2 = ["master", "main"])
    ∧ (env.pushMasterOk = true →
        (push_site_to_github env u t).2.2 = ["master"]
        ∧ (push_site_to_github env u t).1 = .pushed "master")
    ∧ (env.pushMasterOk = false →
        (push_site_to_github env u t).2.2 = ["master", "main"])
    ∧ (env.pushMasterOk = false → env.pushMainOk = true →
        (push_site_to_github env u t).1 = .pushed "main")
    ∧ (env.pushMasterOk = false → env.pushMainOk = false →
        (push_site_to_github env u t).1 = .bothPushesFailed) := by
  have hpresent : hasRemote
      ((if hasRemote env.initRemotes "temp-origin" then
          removeRemote env.initRemotes "temp-origin" else env.initRemotes) ++
        [("temp-origin", remote_url_with_token u t)]) "temp-origin" = true :=
    hasRemote_append_single _ _ _
  unfold push_site_to_github
  rw [h1, h2]
  simp only [Bool.false_eq_true, if_false]
  unfold pushAndCleanup
  rw [hpresent]
  rcases hm : env.pushMasterOk with _ | _ <;> rcases hn : env.pushMainOk with _ | _ <;>
    simp

/-- Witness for C5: both pushes fail; the trace is exactly
`["master", "main"]` and the outcome is a normal both-failed return. -/
theorem C5_master_then_single_main_fallback_witness :
    (push_site_to_github ⟨[], false, false, false, false⟩ "user" "tok").2.2 = ["master", "main"]
    ∧ (push_site_to_github ⟨[], false, false, false, false⟩ "user" "tok").1 = .bothPushesFailed :=
  ⟨(C5_master_then_single_main_fallback ⟨[], false, false, false, false⟩ "user" "tok" rfl rfl).2.2.1 rfl,
   (C5_master_then_single_main_fallback ⟨[], false, false, false, false⟩ "user" "tok" rfl rfl).2.2.2.2 rfl rfl⟩

/-! ## C9: the Pages payload always names branch "master" -/

/-- C9: `enable_github_pages_api` always sends the body
`{"source": {"branch": "master", "path": "/"}}`; in every completed run of
`main` the final network call is the Pages request with that payload,
independent of which branch the preceding push actually landed on. -/
theorem C9_pages_payload_always_master (uRaw tRaw : String) (env : PushEnv) :
    enablePagesPayload = { sourceBranch := "master", sourcePath := "/" }
    ∧ (pyStrip uRaw ≠ "" → pyStrip tRaw ≠ "" →
        (mainRun uRaw tRaw env).raised = false →
        (mainRun uRaw tRaw env).calls.getLast? =
          some (.enablePages (pyStrip uRaw) "alforsa" enablePagesPayload)) := by
  refine ⟨rfl, fun hu ht hr => ?_⟩
  simp only [mainRun, (beq_eq_false_iff_ne).mpr hu, (beq_eq_false_iff_ne).mpr ht,
    Bool.false_or, Bool.false_eq_true, if_false] at hr ⊢
  rcases hix : ((push_site_to_github env (pyStrip uRaw) (pyStrip tRaw)).1 ==
      PushOutcome.uncaughtIndexError) with _ | _
  · simp only [hix, Bool.false_eq_true, if_false]
    exact List.getLast?_concat _
  · simp [hix] at hr

/-- Witness for C9: the push falls back to and succeeds on `main`, yet the
Pages request still names branch `master`. -/
theorem C9_pages_payload_always_master_witness :
    (push_site_to_github ⟨[], false, false, false, true⟩ "user" "tok").1 = .pushed "main"
    ∧ (mainRun "user" "tok" ⟨[], false, false, false, true⟩).calls.getLast? =
        some (.enablePages (pyStrip "user") "alforsa" enablePagesPayload) :=
  ⟨rfl,
   (C9_pages_payload_always_master "user" "tok" ⟨[], false, false, false, true⟩).2
     (by decide) (by decide) rfl⟩

/-! ## C2: number of `<loc>` entries in the builder's sitemap -/

/-- A list is a `isPrefixOf` itself extended by anything. -/
theorem isPrefixOf_append_self (a b : List Char) : a.isPrefixOf (a ++ b) = true := by
  induction a with
  | nil => simp [List.isPrefixOf]
  | cons c cs ih => simp [List.isPrefixOf, ih]

/-- The line predicate counting `<loc>` entries: the line starts with
`    <loc>`. -/
def isLocLine (l : String) : Bool := ("    <loc>").data.isPrefixOf l.data

theorem isLocLine_loc (u : String) : isLocLine ("    <loc>" ++ u ++ "</loc>") = true := by
  unfold isLocLine
  rw [String.data_append, String.data_append]
  rw [List.append_assoc]
  exact isPrefixOf_append_self _ _

theorem isLocLine_lastmod (t : String) :
    isLocLine ("    <lastmod>" ++ t ++ "</lastmod>") = false := by
  unfold isLocLine
  rw [String.data_append, String.data_append]
  rfl

/-- Each four-line `<url>` block of the sitemap contributes exactly one
`<loc>` line. -/
theorem countP_url_blocks (urls : List String) (today : String) :
    (urls.flatMap (fun u =>
      ["  <url>", "    <loc>" ++ u ++ "</loc>",
       "    <lastmod>" ++ today ++ "</lastmod>", "  </url>"])).countP isLocLine
      = urls.length := by
  induction urls with
  | nil => rfl
  | cons u us ih =>
    rw [List.flatMap_cons, List.countP_append, ih]
    simp [List.countP_cons, isLocLine_loc, isLocLine_lastmod, isLocLine]
    omega

/-- The builder's sitemap URL list has `3 + 2×|pages|` entries. -/
theorem sitemapUrls_length (pages : List Page) :
    (sitemapUrls pages).length = 3 + 2 * pages.length := by
  unfold sitemapUrls
  rw [List.length_append]
  have h : ∀ ps : List Page,
      (ps.flatMap (fun p =>
        [base ++ "/en/" ++ p.slug ++ ".html", base ++ "/ar/" ++ p.slug ++ ".html"])).length
        = 2 * ps.length := by
    intro ps
    induction ps with
    | nil => rfl
    | cons p ps ih => rw [List.flatMap_cons, List.length_append, ih]; simp; omega
  rw [h]
  simp

/-- C2 (amended): the builder's sitemap contains exactly `3 + 2×|PageSpec|`
`<loc>` entries (not `4 + 2×|PageSpec|`); for the fixed 6-entry `PAGES`
list these 15 entries are pairwise distinct; a one-entry PageSpec yields 5
entries. -/
theorem C2_sitemap_loc_count :
    (∀ (pages : List Page) (today : String),
      (sitemapLines pages today).countP isLocLine = 3 + 2 * pages.length)
    ∧ (sitemapUrls PAGES).Nodup
    ∧ (∀ today, (sitemapLines PAGES today).countP isLocLine = 15) := by
  have hcount : ∀ (pages : List Page) (today : String),
      (sitemapLines pages today).countP isLocLine = 3 + 2 * pages.length := by
    intro pages today
    unfold sitemapLines
    rw [List.countP_append, List.countP_append, countP_url_blocks, ← sitemapUrls_length]
    have h1 : ([ "<?xml version=\"1.0\" encoding=\"UTF-8\"?>",
        "<urlset xmlns=\"http://www.sitemaps.org/schemas/sitemap/0.9\">"] : List String).countP
        isLocLine = 0 := by decide
    have h2 : (["</urlset>"] : List String).countP isLocLine = 0 := by decide
    rw [h1, h2]
    omega
  refine ⟨hcount, by decide, fun today => ?_⟩
  rw [hcount PAGES today]
  rfl

/-- C2 counterexample: on the spec's own one-entry example PageSpec the
sitemap has 5 `<loc>` entries, not `4 + 2×1 = 6` as the claim states. -/
theorem C2_sitemap_loc_count_counterexample :
    (sitemapLines [⟨"x", "X", "Xع"⟩] "2025-01-01").countP isLocLine = 5
    ∧ (sitemapLines [⟨"x", "X", "Xع"⟩] "2025-01-01").countP isLocLine ≠
        4 + 2 * ([⟨"x", "X", "Xع"⟩] : List Page).length := by
  constructor
  · decide
  · decide

/-! ## C6: the zip archive holds exactly the tree's files at relative paths -/

mutual
theorem walkEntry_eq (pre : String) : (e : FsEntry) →
    walkEntry pre e = (relEntry e).map (fun pc => (pre ++ "/" ++ pc.1, pc.2))
  | .file nm c => rfl
  | .dir nm ds => by
      show walkList (pre ++ "/" ++ nm) ds =
        ((relList ds).map (fun pc => (nm ++ "/" ++ pc.1, pc.2))).map
          (fun pc => (pre ++ "/" ++ pc.1, pc.2))
      rw [walkList_eq (pre ++ "/" ++ nm) ds, List.map_map]
      have hf : ((fun pc : String × String => (pre ++ "/" ++ pc.1, pc.2)) ∘
          (fun pc : String × String => (nm ++ "/" ++ pc.1, pc.2))) =
          (fun pc : String × String => (pre ++ "/" ++ nm ++ "/" ++ pc.1, pc.2)) := by
        funext pc
        simp [Function.comp, String.append_assoc]
      rw [hf]
theorem walkList_eq (pre : String) : (es : FsList) →
    walkList pre es = (relList es).map (fun pc => (pre ++ "/" ++ pc.1, pc.2))
  | .nil => rfl
  | .cons e es => by
      show walkEntry pre e ++ walkList pre es =
        (relEntry e ++ relList es).map (fun pc => (pre ++ "/" ++ pc.1, pc.2))
      rw [List.map_append, walkEntry_eq pre e, walkList_eq pre es]
end

/-- Relative paths are recovered exactly by `os.path.relpath` from the
walk's absolute paths. -/
theorem pyRelpath_cancel (root rel : String) :
    pyRelpath (root ++ "/" ++ rel) root = rel := by
  apply String.ext
  show ((root ++ "/" ++ rel)).data.drop (root.data.length + 1) = rel.data
  rw [String.data_append, String.data_append]
  show ((root.data ++ ['/']) ++ rel.data).drop (root.data.length + 1) = rel.data
  have h : (root.data ++ ['/']).length = root.data.length + 1 := by simp
  rw [← h]
  exact List.drop_left _ _

/-- The zip loop stores exactly the tree's files under their paths
relative to the output root. -/
theorem zipEntries_eq_relList (root : String) (es : FsList) :
    zipEntries root es = relList es := by
  unfold zipEntries
  rw [walkList_eq, List.map_map]
  have hf : ((fun pc : String × String => (pyRelpath pc.1 root, pc.2)) ∘
      (fun pc : String × String => (root ++ "/" ++ pc.1, pc.2))) = id := by
    funext pc
    simp [Function.comp, pyRelpath_cancel]
  rw [hf, List.map_id]

/-- C6: the archive produced by the builder's zip loop contains every file
reachable by walking the output root, each stored under its path relative
to that root (for any tree and root, and in particular for the generated
site); extracting it therefore reproduces the output directory's file set
exactly (same names, same byte contents); and no entry path of the
generated site contains the output root's own directory name
`alforsa_site`. -/
theorem C6_zip_archive_relative :
    (∀ (root : String) (es : FsList), zipEntries root es = relList es)
    ∧ (∀ (today : String) (year : Nat),
        zipEntries "alforsa_site" (siteTree today year) = buildOutputs today year)
    ∧ (∀ (today : String) (year : Nat),
        ((buildOutputs today year).map Prod.fst).all
          (fun p => !(containsSeq ("alforsa_site").data p.data)) = true) := by
  refine ⟨zipEntries_eq_relList, fun t y => zipEntries_eq_relList _ _, fun t y => ?_⟩
  rfl

/-! ## Canonical-tag decomposition of `make_html_page` -/

/-- The pattern occurs in a subject that starts with it. -/
theorem containsSeq_self_append (pat b : List Char) : containsSeq pat (pat ++ b) = true := by
  cases pat with
  | nil => cases b <;> simp [containsSeq, List.isPrefixOf]
  | cons c cs =>
    show containsSeq (c :: cs) ((c :: cs) ++ b) = true
    rw [List.cons_append]
    show ((c :: cs).isPrefixOf (c :: (cs ++ b)) || containsSeq (c :: cs) (cs ++ b)) = true
    rw [← List.cons_append, isPrefixOf_append_self]
    rfl

/-- Occurrence survives prepending anything. -/
theorem containsSeq_append_left (pat a b : List Char) (h : containsSeq pat b = true) :
    containsSeq pat (a ++ b) = true := by
  induction a with
  | nil => simpa using h
  | cons c cs ih => simp [containsSeq, ih]

/-- If `subj = pre ++ (pat ++ post)` then the bytes of `pat` occur
contiguously in `subj`. -/
theorem contains_of_decomp (pat pre post subj : String)
    (h : subj = pre ++ (pat ++ post)) : containsSeq pat.data subj.data = true := by
  subst h
  rw [String.data_append, String.data_append]
  exact containsSeq_append_left _ _ _ (containsSeq_self_append _ _)

/-- `make_html_page`'s output is `pre ++ (tag ++ post)` where `tag` is the
canonical-link tag embedding the `canonical` argument verbatim. -/
theorem make_html_page_canonical_decomp (title description canonical body_html lang : String)
    (links : List (String × String)) (year : Nat) :
    make_html_page title description canonical body_html lang links year =
      ("<!doctype html>\n<html lang=\"" ++ lang ++ "\">\n<head>\n  <meta charset=\"utf-8\">\n  <meta name=\"viewport\" content=\"width=device-width,initial-scale=1\">\n  <title>" ++
       title ++ "</title>\n  <meta name=\"description\" content=\"" ++
       description ++ "\">\n  <meta name=\"keywords\" content=\"Alforsa, الفرصة, ice cream machine, soft serve, slush, slush machine, spare parts, maintenance, 3 burner slush\">\n  ") ++
      (("<link rel=\"canonical\" href=\"" ++ canonical ++ "\">") ++
       ("\n  " ++ hreflangTags links ++ "<meta property=\"og:site_name\" content=\"" ++
        BUSINESS.name_en ++ "\">\n  <meta property=\"og:title\" content=\"" ++
        title ++ "\">\n  <meta property=\"og:description\" content=\"" ++
        description ++ "\">\n  <meta property=\"og:url\" content=\"" ++
        canonical ++ "\">\n  <meta name=\"twitter:card\" content=\"summary_large_image\">\n  <style>body\x7bfont-family:Arial,Helvetica,sans-serif;max-width:960px;margin:20px auto;padding:0 16px;line-height:1.5\x7d header h1\x7bfont-size:1.6rem\x7d footer\x7bmargin-top:40px;color:#444\x7d</style>\n</head>\n<body>\n<header>\n  <h1>" ++
        BUSINESS.name_en ++ " — " ++ BUSINESS.name_ar ++ "</h1>\n  <p>" ++
        BUSINESS.description_en ++ "</p>\n  <p><strong>Phone:</strong> <a href=\"tel:" ++
        BUSINESS.phone ++ "\">" ++ BUSINESS.phone ++ "</a> | <strong>Website:</strong> <a href=\"" ++
        BUSINESS.main_url ++ "\">" ++ BUSINESS.main_url ++ "</a></p>\n  <hr>\n</header>\n<main>\n" ++
        body_html ++ "\n</main>\n<footer>\n  <p>" ++
        BUSINESS.name_en ++ " — " ++ BUSINESS.name_ar ++ "</p>\n  <p>Address: " ++
        BUSINESS.streetAddress ++ "</p>\n  <p>Phone: <a href=\"tel:" ++
        BUSINESS.phone ++ "\">" ++ BUSINESS.phone ++ "</a> | Website: <a href=\"" ++
        BUSINESS.main_url ++ "\">" ++ BUSINESS.main_url ++ "</a></p>\n  <small>© " ++
        toString year ++ " " ++ BUSINESS.name_en ++ "</small>\n</footer>\n</body>\n</html>\n")) := by
  simp only [make_html_page, String.append_assoc]

/-! ## C3: two documents per page, canonical link `<main_url>/<lang>/<slug>.html` -/

/-- C3: for every entry of `PAGES` the builder emits exactly one English
document at `en/<slug>.html` and exactly one Arabic document at
`ar/<slug>.html` (two documents per entry), and each document's bytes
contain the canonical-link tag whose URL is the normalized main URL
followed by `/<lang>/<slug>.html`. -/
theorem C3_per_page_documents_and_canonical (p : Page) (hp : p ∈ PAGES)
    (today : String) (year : Nat) :
    (buildOutputs today year).countP (fun e => e.1 == "en/" ++ p.slug ++ ".html") = 1
    ∧ (buildOutputs today year).countP (fun e => e.1 == "ar/" ++ p.slug ++ ".html") = 1
    ∧ (buildOutputs today year).lookup ("en/" ++ p.slug ++ ".html") = some (enPageHtml p year)
    ∧ (buildOutputs today year).lookup ("ar/" ++ p.slug ++ ".html") = some (arPageHtml p year)
    ∧ containsSeq ("<link rel=\"canonical\" href=\"" ++ (base ++ "/en/" ++ p.slug ++ ".html") ++ "\">").data
        (enPageHtml p year).data = true
    ∧ containsSeq ("<link rel=\"canonical\" href=\"" ++ (base ++ "/ar/" ++ p.slug ++ ".html") ++ "\">").data
        (arPageHtml p year).data = true := by
  fin_cases hp <;>
    exact ⟨rfl, rfl, rfl, rfl,
      contains_of_decomp _ _ _ _ (make_html_page_canonical_decomp _ _ _ _ _ _ _),
      contains_of_decomp _ _ _ _ (make_html_page_canonical_decomp _ _ _ _ _ _ _)⟩

/-- Witness for C3 at the first `PAGES` entry. -/
theorem C3_per_page_documents_and_canonical_witness :
    (buildOutputs "2025-01-01" 2025).countP
        (fun e => e.1 == "en/" ++ "soft-serve-ice-cream-machine" ++ ".html") = 1
    ∧ (buildOutputs "2025-01-01" 2025).countP
        (fun e => e.1 == "ar/" ++ "soft-serve-ice-cream-machine" ++ ".html") = 1
    ∧ (buildOutputs "2025-01-01" 2025).lookup ("en/" ++ "soft-serve-ice-cream-machine" ++ ".html")
        = some (enPageHtml ⟨"soft-serve-ice-cream-machine", "Soft Serve Ice Cream Machine", "ماكينة آيس كريم سوفت سيرف"⟩ 2025)
    ∧ (buildOutputs "2025-01-01" 2025).lookup ("ar/" ++ "soft-serve-ice-cream-machine" ++ ".html")
        = some (arPageHtml ⟨"soft-serve-ice-cream-machine", "Soft Serve Ice Cream Machine", "ماكينة آيس كريم سوفت سيرف"⟩ 2025)
    ∧ containsSeq ("<link rel=\"canonical\" href=\"" ++
          (base ++ "/en/" ++ "soft-serve-ice-cream-machine" ++ ".html") ++ "\">").data
        (enPageHtml ⟨"soft-serve-ice-cream-machine", "Soft Serve Ice Cream Machine", "ماكينة آيس كريم سوفت سيرف"⟩ 2025).data = true
    ∧ containsSeq ("<link rel=\"canonical\" href=\"" ++
          (base ++ "/ar/" ++ "soft-serve-ice-cream-machine" ++ ".html") ++ "\">").data
        (arPageHtml ⟨"soft-serve-ice-cream-machine", "Soft Serve Ice Cream Machine", "ماكينة آيس كريم سوفت سيرف"⟩ 2025).data = true :=
  C3_per_page_documents_and_canonical
    ⟨"soft-serve-ice-cream-machine", "Soft Serve Ice Cream Machine", "ماكينة آيس كريم سوفت سيرف"⟩
    (by decide) "2025-01-01" 2025

/-! ## C8: determinism of the build up to the date-stamped fields -/

/-- `make_html_page`'s output is `pre ++ (year ++ post)` where the year
string appears exactly once, in the footer copyright field, and `pre` /
`post` do not depend on the year. -/
theorem make_html_page_year_decomp (title description canonical body_html lang : String)
    (links : List (String × String)) (year : Nat) :
    make_html_page title description canonical body_html lang links year =
      ("<!doctype html>\n<html lang=\"" ++ lang ++ "\">\n<head>\n  <meta charset=\"utf-8\">\n  <meta name=\"viewport\" content=\"width=device-width,initial-scale=1\">\n  <title>" ++
       title ++ "</title>\n  <meta name=\"description\" content=\"" ++
       description ++ "\">\n  <meta name=\"keywords\" content=\"Alforsa, الفرصة, ice cream machine, soft serve, slush, slush machine, spare parts, maintenance, 3 burner slush\">\n  " ++
       "<link rel=\"canonical\" href=\"" ++ canonical ++ "\">" ++ "\n  " ++
       hreflangTags links ++ "<meta property=\"og:site_name\" content=\"" ++
       BUSINESS.name_en ++ "\">\n  <meta property=\"og:title\" content=\"" ++
       title ++ "\">\n  <meta property=\"og:description\" content=\"" ++
       description ++ "\">\n  <meta property=\"og:url\" content=\"" ++
       canonical ++ "\">\n  <meta name=\"twitter:card\" content=\"summary_large_image\">\n  <style>body\x7bfont-family:Arial,Helvetica,sans-serif;max-width:960px;margin:20px auto;padding:0 16px;line-height:1.5\x7d header h1\x7bfont-size:1.6rem\x7d footer\x7bmargin-top:40px;color:#444\x7d</style>\n</head>\n<body>\n<header>\n  <h1>" ++
       BUSINESS.name_en ++ " — " ++ BUSINESS.name_ar ++ "</h1>\n  <p>" ++
       BUSINESS.description_en ++ "</p>\n  <p><strong>Phone:</strong> <a href=\"tel:" ++
       BUSINESS.phone ++ "\">" ++ BUSINESS.phone ++ "</a> | <strong>Website:</strong> <a href=\"" ++
       BUSINESS.main_url ++ "\">" ++ BUSINESS.main_url ++ "</a></p>\n  <hr>\n</header>\n<main>\n" ++
       body_html ++ "\n</main>\n<footer>\n  <p>" ++
       BUSINESS.name_en ++ " — " ++ BUSINESS.name_ar ++ "</p>\n  <p>Address: " ++
       BUSINESS.streetAddress ++ "</p>\n  <p>Phone: <a href=\"tel:" ++
       BUSINESS.phone ++ "\">" ++ BUSINESS.phone ++ "</a> | Website: <a href=\"" ++
       BUSINESS.main_url ++ "\">" ++ BUSINESS.main_url ++ "</a></p>\n  <small>© ") ++
      (toString year ++ (" " ++ BUSINESS.name_en ++ "</small>\n</footer>\n</body>\n</html>\n")) := by
  simp only [make_html_page, String.append_assoc]

/-- The file inventory of the generated site, independent of the date. -/
theorem buildOutputs_names (t : String) (y : Nat) :
    (buildOutputs t y).map Prod.fst =
    ["index.html", "sitemap.xml", "robots.txt", "schema_localbusiness.json",
     "google-site-verification-alforsa.html", "CNAME",
     "en/soft-serve-ice-cream-machine.html", "en/alforsa-ice-cream-machine.html",
     "en/slush-machine.html", "en/3-burner-slush-machine.html", "en/spare-parts.html",
     "en/maintenance.html", "en/index.html",
     "ar/soft-serve-ice-cream-machine.html", "ar/alforsa-ice-cream-machine.html",
     "ar/slush-machine.html", "ar/3-burner-slush-machine.html", "ar/spare-parts.html",
     "ar/maintenance.html", "ar/index.html"] := by rfl

/-- C8: the Site Builder is a pure function of the current date: two runs
with equal date inputs produce byte-identical outputs; the file inventory
never depends on the date; with the year fixed, everything except
`sitemap.xml` (whose `lastmod` carries the day) is byte-identical across
days; the four non-date-stamped files (robots, JSON-LD, verification stub,
CNAME) are byte-identical across arbitrary dates; and the year enters an
HTML document only through the footer copyright field. -/
theorem C8_deterministic_build :
    ∀ (t t' : String) (y y' : Nat),
      (t = t' → y = y' → buildOutputs t y = buildOutputs t' y')
      ∧ (buildOutputs t y).map Prod.fst = (buildOutputs t' y').map Prod.fst
      ∧ (buildOutputs t y).filter (fun e => e.1 != "sitemap.xml") =
          (buildOutputs t' y).filter (fun e => e.1 != "sitemap.xml")
      ∧ (buildOutputs t y).filter (fun e =>
            e.1 == "robots.txt" || e.1 == "schema_localbusiness.json" ||
            e.1 == "google-site-verification-alforsa.html" || e.1 == "CNAME") =
          (buildOutputs t' y').filter (fun e =>
            e.1 == "robots.txt" || e.1 == "schema_localbusiness.json" ||
            e.1 == "google-site-verification-alforsa.html" || e.1 == "CNAME")
      ∧ (∀ (title d c b lang : String) (links : List (String × String)),
          ∃ pre post : String, ∀ (yy : Nat),
            make_html_page title d c b lang links yy = pre ++ (toString yy ++ post)) := by
  intro t t' y y'
  refine ⟨?_, (buildOutputs_names t y).trans (buildOutputs_names t' y').symm, ?_, ?_, ?_⟩
  · intro ht hy
    subst ht
    subst hy
    rfl
  · simp [buildOutputs, siteTree, FsList.ofList, relList, relEntry, List.filter_append]
  · simp [buildOutputs, siteTree, FsList.ofList, relList, relEntry, List.filter_append,
      PAGES, List.map, List.filter]
  · intro title d c b lang links
    exact ⟨_, _, fun yy => make_html_page_year_decomp title d c b lang links yy⟩

/-- Witness for C8: equal dates give byte-identical outputs; with the same
year but different days, everything but the sitemap is byte-identical. -/
theorem C8_deterministic_build_witness :
    buildOutputs "2025-11-02" 2025 = buildOutputs "2025-11-02" 2025
    ∧ (buildOutputs "2025-11-02" 2025).filter (fun e => e.1 != "sitemap.xml") =
        (buildOutputs "2025-12-31" 2025).filter (fun e => e.1 != "sitemap.xml") :=
  ⟨(C8_deterministic_build "2025-11-02" "2025-11-02" 2025 2025).1 rfl rfl,
   (C8_deterministic_build "2025-11-02" "2025-12-31" 2025 2025).2.2.1⟩
